import Mathlib

/-! Formal model (shallow embedding) of the Livy session and statement
execution core of the dbt-fabricspark adapter (files `livysession.py` and
`credentials.py`).  Decoded Python JSON values are modelled by `JVal`,
HTTP interactions are modelled by scripted response lists, and time
advances only at `sleep` calls (HTTP calls are treated as instantaneous,
which is the abstraction under which the polling/backoff schedules are
stated). -/

/-- Model of a decoded Python JSON value. -/
inductive JVal where
  | null
  | bool (b : Bool)
  | num (n : Int)
  | str (s : String)
  | arr (xs : List JVal)
  | obj (fields : List (String × JVal))

/-- First-match lookup in a Python dict, modelled as an association list. -/
def jlookup : List (String × JVal) → String → Option JVal
  | [], _ => none
  | (k, v) :: rest, key => if k = key then some v else jlookup rest key

/-- Python `d.get(key, default)` on a dict. -/
def pyDictGet (fs : List (String × JVal)) (key : String) (d : JVal) : JVal :=
  (jlookup fs key).getD d

/-- Python equality `v == "s"` between a JSON value and a string literal. -/
def JVal.isStr (v : JVal) (s : String) : Bool :=
  match v with
  | .str t => t = s
  | _ => false

/-- View a JSON value as a dict, when it is one (a `.get` call on anything
else raises `AttributeError` in Python, modelled as a crash outcome). -/
def JVal.asObj : JVal → Option (List (String × JVal))
  | .obj fs => some fs
  | _ => none

/-- Python `str(v)` for scalar JSON values.  Container reprs are abstracted
by placeholders; every use in this development applies it to scalars. -/
def pyStr : JVal → String
  | .null => "None"
  | .bool b => if b then "True" else "False"
  | .num n => toString n
  | .str s => s
  | .arr _ => "<list>"
  | .obj _ => "<dict>"

/-- Uncaught Python exceptions that subscription, `len` or iteration raise. -/
inductive PyErr where
  | keyError
  | typeError
deriving DecidableEq

/-- Python subscription `v[key]`: `KeyError` on a missing key, `TypeError`
when the value is not a dict. -/
def pyIndex (v : JVal) (key : String) : Except PyErr JVal :=
  match v with
  | .obj fs =>
    match jlookup fs key with
    | some x => .ok x
    | none => .error .keyError
  | _ => .error .typeError

/-- Python `len(v)`. -/
def pyLen : JVal → Option Nat
  | .arr xs => some xs.length
  | .obj fs => some fs.length
  | .str s => some s.length
  | _ => none

/-- Python iteration over a value: list elements, dict keys, string chars. -/
def pyIter : JVal → Option (List JVal)
  | .arr xs => some xs
  | .obj fs => some (fs.map (fun kv => JVal.str kv.1))
  | .str s => some (s.data.map (fun c => JVal.str (String.singleton c)))
  | _ => none

/-- Concatenation of a list of strings (the semantics of `"".join`). -/
def joinAll : List String → String
  | [] => ""
  | s :: rest => s ++ joinAll rest

/-- Helper modelling Python string `join` over the elements of a list. -/
def joinStrList : List JVal → Option String
  | [] => some ""
  | .str s :: rest => (joinStrList rest).map (fun t => s ++ t)
  | _ => none

/-- Python `"".join(v)`: concatenates string elements; `TypeError` (`none`)
when an element is not a string or the value is not iterable (iterating a
string yields the string itself, iterating a dict yields its keys). -/
def joinStrs : JVal → Option String
  | .arr xs => joinStrList xs
  | .str s => some s
  | .obj fs => some (joinAll (fs.map (fun kv => kv.1)))
  | _ => none

/-- Observable side effects of the polling and retry loops. -/
inductive Event where
  | sleep (seconds : Nat)
  | rebuildTransport
  | getSession
  | getStatement
  | postStatement
deriving DecidableEq

/-! Binding conversion (`LivySessionConnectionWrapper._fix_binding`,
livysession.py lines 795-808). -/

/-- Components of a Python `datetime.datetime` value. -/
structure PyDateTime where
  year : Nat
  month : Nat
  day : Nat
  hour : Nat
  minute : Nat
  second : Nat
  microsecond : Nat

/-- Zero-pad the decimal rendering of `n` to width `w` (CPython `strftime`
field padding). -/
def padZero (w n : Nat) : String :=
  let s := toString n
  String.mk (List.replicate (w - s.length) '0') ++ s

/-- CPython `value.strftime("%Y-%m-%d %H:%M:%S.%f")`. -/
def strftimeFull (d : PyDateTime) : String :=
  padZero 4 d.year ++ "-" ++ padZero 2 d.month ++ "-" ++ padZero 2 d.day ++ " " ++
    padZero 2 d.hour ++ ":" ++ padZero 2 d.minute ++ ":" ++ padZero 2 d.second ++ "." ++
    padZero 6 d.microsecond

/-- Python `s.replace(c, r)` for a single-character needle. -/
def pyReplaceChar (s : String) (c : Char) (r : String) : String :=
  String.join (s.data.map (fun ch => if ch = c then r else String.singleton ch))

/-- A value passed as a query binding.  The `isinstance` dispatch of the
source is modelled by disjoint constructors: `num` covers `NUMBERS`
(ints, floats, decimals, modelled exactly over `Rat`), `datetime` covers
`datetime.datetime`, `none` is Python `None`, and `other` carries the
`str(value)` rendering of any other object. -/
inductive SqlBinding where
  | num (x : Rat)
  | datetime (d : PyDateTime)
  | none
  | other (s : String)

/-- Result of `_fix_binding`: either a Python float (modelled exactly over
`Rat`) or a string. -/
inductive FixedBinding where
  | fnum (x : Rat)
  | fstr (s : String)
deriving DecidableEq

/-- `LivySessionConnectionWrapper._fix_binding` (livysession.py 795-808):
numbers become `float(value)`; datetimes render via
`strftime("%Y-%m-%d %H:%M:%S.%f")[:-3]` wrapped in single quotes; `None`
becomes the empty-string literal; anything else is stringified, has
backslashes doubled and then single quotes backslash-escaped, and is
wrapped in single quotes. -/
def fix_binding : SqlBinding → FixedBinding
  | .num x => .fnum x
  | .datetime d => .fstr ("\x27" ++ (strftimeFull d).dropRight 3 ++ "\x27")
  | .none => .fstr "\x27\x27"
  | .other s =>
    .fstr ("\x27" ++ pyReplaceChar (pyReplaceChar s '\\' "\\\\") '\x27' "\\\x27" ++ "\x27")

/-- C8: binding conversion maps numerics to floats (Decimal 3.5 renders as
the float 3.5), datetimes to a quoted millisecond-precision literal,
`None` to the empty-string literal, and any other value to its escaped,
single-quoted string form, so that `O'Brien` renders as `'O\'Brien'`. -/
theorem fix_binding_spec :
    fix_binding (.other "O\x27Brien") = .fstr "\x27O\\\x27Brien\x27"
    ∧ fix_binding .none = .fstr "\x27\x27"
    ∧ (∀ x : Rat, fix_binding (.num x) = .fnum x)
    ∧ fix_binding (.num (3.5 : Rat)) = .fnum (3.5 : Rat)
    ∧ fix_binding (.datetime ⟨2024, 3, 7, 9, 5, 30, 123456⟩) =
        .fstr "\x272024-03-07 09:05:30.123\x27"
    ∧ fix_binding (.other "a\\b") = .fstr "\x27a\\\\b\x27" :=
  ⟨rfl, rfl, fun _ => rfl, rfl, rfl, rfl⟩

/-! Token cache (`get_headers`, `is_token_refresh_necessary`,
`get_default_access_token`, livysession.py 73-176). -/

/-- Model of `azure.core.credentials.AccessToken`. -/
structure AccessToken where
  token : String
  expires_on : Nat
deriving DecidableEq

/-- The fields of `FabricSparkCredentials` (credentials.py) that the token
cache reads: the authentication mode (default `"az_cli"`) and the raw
`accessToken` used by the `int_tests` mode. -/
structure Credentials where
  authentication : String
  accessToken : String
deriving DecidableEq

/-- Lower-case an ASCII letter (the authentication-mode strings of the
source are ASCII, so this matches Python `str.lower` on them). -/
def asciiLower (c : Char) : Char :=
  if 'A' ≤ c ∧ c ≤ 'Z' then Char.ofNat (c.toNat + 32) else c

/-- Python `s.lower()` for ASCII strings. -/
def pyLower (s : String) : String :=
  String.mk (s.data.map asciiLower)

/-- `is_token_refresh_necessary` (livysession.py 73-85): refresh when the
truncated whole-minute difference between the token expiry and the current
wall clock is below 5.  Timestamps are whole seconds; for an already
expired token the Python float truncation and the `Nat` truncated
subtraction used here give the same boolean (both demand a refresh). -/
def is_token_refresh_necessary (unixTimestamp now : Nat) : Bool :=
  (unixTimestamp - now) / 60 < 5

/-- Which identity flow, if any, a `get_headers` call invoked. -/
inductive FetchKind where
  | noFetch
  | cliFetch
  | intTestsFetch
  | spFetch
deriving DecidableEq

/-- The constant far-future expiry used by `get_default_access_token`
(livysession.py 147). -/
def intTestsExpiry : Nat := 1845972874

/-- The token-refresh dispatch of `get_headers` (livysession.py 163-171).
`cliTok` and `spTok` stand for the tokens the external CLI and
service-principal identity providers would return; the `int_tests` mode
synthesizes `AccessToken(credentials.accessToken, 1845972874)` locally.
Python truthiness of the mode string is modelled by the `≠ ""` guard. -/
def refreshToken (creds : Credentials) (cliTok spTok : AccessToken) :
    AccessToken × FetchKind :=
  if creds.authentication ≠ "" ∧ pyLower creds.authentication = "cli" then
    (cliTok, .cliFetch)
  else if creds.authentication ≠ "" ∧ pyLower creds.authentication = "int_tests" then
    (⟨creds.accessToken, intTestsExpiry⟩, .intTestsFetch)
  else
    (spTok, .spFetch)

/-- The header dict built by `get_headers` (livysession.py 175). -/
def mkHeaders (token : String) : List (String × String) :=
  [("Content-Type", "application/json"), ("Authorization", "Bearer " ++ token)]

/-- `get_headers` (livysession.py 154-176) as a state transition on the
process-wide cached token (the `_token_lock` critical section is modelled
by this single atomic transition).  Returns the headers, the new cached
token, and which identity flow was invoked. -/
def get_headers (creds : Credentials) (now : Nat) (cached : Option AccessToken)
    (cliTok spTok : AccessToken) :
    List (String × String) × Option AccessToken × FetchKind :=
  match cached with
  | some t =>
    if is_token_refresh_necessary t.expires_on now then
      let r := refreshToken creds cliTok spTok
      (mkHeaders r.1.token, some r.1, r.2)
    else
      (mkHeaders t.token, some t, .noFetch)
  | none =>
    let r := refreshToken creds cliTok spTok
    (mkHeaders r.1.token, some r.1, r.2)

/-- C6: while the current time is more than 5 minutes before the cached
token's `expires_on`, `get_headers` serves the cached token (with the
Content-Type and Bearer headers) and invokes no identity flow; conversely
a fetch can only happen when no token is cached or the cached token is
within 5 minutes of expiry.  The atomic replacement under the token lock
is modelled by the single-step state transition. -/
theorem get_headers_cache_hit (creds : Credentials) (now : Nat)
    (t t' : AccessToken) (cliTok spTok : AccessToken)
    (h : now + 300 < t.expires_on) :
    get_headers creds now (some t) cliTok spTok = (mkHeaders t.token, some t, .noFetch)
    ∧ ((get_headers creds now (some t') cliTok spTok).2.2 ≠ .noFetch →
        t'.expires_on < now + 300) := by
  constructor
  · have hb : is_token_refresh_necessary t.expires_on now = false := by
      simp only [is_token_refresh_necessary, decide_eq_false_iff_not, not_lt]
      omega
    simp [get_headers, hb]
  · intro hf
    by_contra hlt
    have hb : is_token_refresh_necessary t'.expires_on now = false := by
      simp only [is_token_refresh_necessary, decide_eq_false_iff_not, not_lt]
      omega
    simp [get_headers, hb] at hf

/-- Witness for C6 at a concrete cached token 301 seconds from expiry on the
refresh side and far from expiry on the cache-hit side. -/
theorem get_headers_cache_hit_witness :
    get_headers ⟨"az_cli", "raw"⟩ 1000 (some ⟨"tok", 2000⟩) ⟨"c", 9⟩ ⟨"s", 9⟩ =
      (mkHeaders "tok", some ⟨"tok", 2000⟩, .noFetch) :=
  (get_headers_cache_hit ⟨"az_cli", "raw"⟩ 1000 ⟨"tok", 2000⟩ ⟨"tok", 2000⟩
    ⟨"c", 9⟩ ⟨"s", 9⟩ (by decide)).1

/-- C7: on a cache miss or refresh, `get_headers` dispatches on the
authentication mode case-insensitively: `cli` uses the CLI identity
provider, `int_tests` synthesizes a token from `credentials.accessToken`
with the fixed far-future expiry 1845972874, and every other value —
including the credentials default `"az_cli"` — uses the service-principal
flow. -/
theorem get_headers_auth_dispatch (creds : Credentials)
    (cliTok spTok : AccessToken) (now : Nat) :
    (creds.authentication ≠ "" → pyLower creds.authentication = "cli" →
      get_headers creds now none cliTok spTok =
        (mkHeaders cliTok.token, some cliTok, .cliFetch))
    ∧ (creds.authentication ≠ "" → pyLower creds.authentication = "int_tests" →
      get_headers creds now none cliTok spTok =
        (mkHeaders creds.accessToken, some ⟨creds.accessToken, intTestsExpiry⟩,
          .intTestsFetch))
    ∧ (pyLower creds.authentication ≠ "cli" →
        pyLower creds.authentication ≠ "int_tests" →
      get_headers creds now none cliTok spTok =
        (mkHeaders spTok.token, some spTok, .spFetch))
    ∧ get_headers ⟨"az_cli", creds.accessToken⟩ now none cliTok spTok =
        (mkHeaders spTok.token, some spTok, .spFetch) := by
  refine ⟨?_, ?_, ?_, ?_⟩
  · intro hne hlow
    simp [get_headers, refreshToken, hne, hlow]
  · intro hne hlow
    have hcli : pyLower creds.authentication ≠ "cli" := by
      rw [hlow]; decide
    simp [get_headers, refreshToken, hne, hlow, hcli]
  · intro h1 h2
    simp [get_headers, refreshToken, h1, h2]
  · have h1 : pyLower "az_cli" ≠ "cli" := by decide
    have h2 : pyLower "az_cli" ≠ "int_tests" := by decide
    simp [get_headers, refreshToken, h1, h2]

/-- Witness for C7: the `CLI` mode (mixed case) dispatches to the CLI flow
at concrete inputs. -/
theorem get_headers_auth_dispatch_witness :
    get_headers ⟨"CLI", "raw"⟩ 0 none ⟨"clitok", 7⟩ ⟨"sptok", 8⟩ =
      (mkHeaders "clitok", some ⟨"clitok", 7⟩, .cliFetch) :=
  (get_headers_auth_dispatch ⟨"CLI", "raw"⟩ ⟨"clitok", 7⟩ ⟨"sptok", 8⟩ 0).1
    (by decide) (by decide)

/-! Session manager disconnect (`LivySessionManager.disconnect`,
livysession.py 745-755, and `LivySession.is_valid_session`, 335-353). -/

/-- Local state of the process-wide `LivySession` object: its session id
(`None` until assigned) and the `is_new_session_required` flag. -/
structure SessionLocal where
  sessionId : Option String
  needNewSession : Bool
deriving DecidableEq

/-- `LivySession.is_valid_session` (livysession.py 335-353): `False` when
the session id is `None`; otherwise a GET on the session is issued and any
exception (including a 404 after remote deletion) is treated as invalid,
so the result is the remote-liveness flag `remoteAlive` (which stands for
"the GET succeeds and the nested Livy state is not dead, shutting_down,
killed or error"). -/
def is_valid_session (s : SessionLocal) (remoteAlive : Bool) : Bool :=
  match s.sessionId with
  | none => false
  | some _ => remoteAlive

/-- `LivySession.delete_session` (livysession.py 321-333): best-effort
remote deletion; every exception is caught and logged, so it is a total
function on the remote state. -/
def delete_session (_remoteAlive : Bool) : Bool :=
  false

/-- `LivySessionManager.disconnect` (livysession.py 745-755) as a total
transition on the pair (local manager state, remote liveness); totality
models that the method never raises (its two callees swallow exceptions).
The manager state is `none` when `livy_global_session is None`.  When a
valid session exists, the remote session is deleted and
`is_new_session_required` is set; otherwise nothing changes. -/
def disconnect : Option SessionLocal × Bool → Option SessionLocal × Bool
  | (some s, remoteAlive) =>
    if is_valid_session s remoteAlive then
      (some { s with needNewSession := true }, delete_session remoteAlive)
    else
      (some s, remoteAlive)
  | (none, remoteAlive) => (none, remoteAlive)

/-- C9: `disconnect` is idempotent — from any state, a second call is a
no-op — and, given a valid session, the first call deletes the remote
session and marks the local state as needing a new session; being a total
function, the model also never raises. -/
theorem disconnect_idempotent (st : Option SessionLocal × Bool) (sid : String) :
    disconnect (disconnect st) = disconnect st
    ∧ disconnect (some ⟨some sid, false⟩, true) = (some ⟨some sid, true⟩, false) := by
  constructor
  · obtain ⟨s, remote⟩ := st
    match s with
    | none => rfl
    | some sl =>
      match h : sl.sessionId with
      | none => simp [disconnect, is_valid_session, h]
      | some i =>
        cases remote with
        | false => simp [disconnect, is_valid_session, h]
        | true => simp [disconnect, is_valid_session, h, delete_session]
  · rfl

/-- Witness for C9 at a concrete session id and state. -/
theorem disconnect_idempotent_witness :
    disconnect (disconnect (some ⟨some "42", false⟩, true)) =
      disconnect (some ⟨some "42", false⟩, true) :=
  (disconnect_idempotent (some ⟨some "42", false⟩, true) "42").1

/-! Statement-result polling (`LivyCursor._getLivyResult`,
livysession.py 480-570).  The loop is modelled over a script of poll
responses; `elapsed` is the wall-clock time consumed so far (advanced by
sleeps) and `consec` is the consecutive-error counter. -/

/-- One polled response of `GET .../statements/id`, as seen by the loop
body: a `requests` ConnectionError, any other RequestException (HTTP
status errors included), a ValueError/KeyError while parsing the body, or
a successfully parsed JSON body. -/
inductive StmtPollResponse where
  | connError
  | httpError
  | parseError
  | ok (body : JVal)

/-- Terminal outcomes of `_getLivyResult`. -/
inductive StmtPollOutcome where
  | completed (body : JVal)
  | stmtTimeout
  | connFatal (msg : String)
  | httpFatal (msg : String)
  | stmtFailed (msg : String)
  | crashed
  | scriptExhausted

/-- `max_consecutive_errors` (livysession.py 499). -/
def maxConsecutiveErrors : Nat := 10

/-- Prefix a trace of events onto a loop result. -/
def prependEvents {α : Type} (evs : List Event) (p : List Event × α) :
    List Event × α :=
  (evs ++ p.1, p.2)

/-- Message of the fatal connection-failure error (livysession.py 520-523;
the interpolated exception text is elided). -/
def connFatalMsg (sid : String) : String :=
  "Lost connection polling statement " ++ sid ++ " after " ++
    toString maxConsecutiveErrors ++ " consecutive failures"

/-- Message of the fatal HTTP-error path (livysession.py 537-540; the
interpolated exception text is elided). -/
def httpFatalMsg (sid : String) : String :=
  "HTTP error polling statement " ++ sid ++ " after " ++
    toString maxConsecutiveErrors ++ " consecutive failures"

/-- `LivyCursor._getLivyResult` polling loop (livysession.py 497-570).
`sid` is `repr(json_res["id"])`, `t` is `statement_timeout`, `w` is
`poll_statement_wait`.  Each iteration first checks the deadline, then
issues the GET (event `getStatement`) and dispatches exactly as the
source: connection errors bump the counter and either fail fatally at the
budget or rebuild the transport and back off `min(5 * 2^(c-1), 60)`;
other request exceptions bump the same counter but wait the fixed poll
interval; parse errors wait the fixed poll interval without touching the
counter; a parsed body resets the counter, returns on `available`, raises
on `error`/`cancelled`/`cancelling`, and otherwise sleeps the poll
interval. -/
def getLivyResult (sid : String) (t w : Nat) :
    List StmtPollResponse → Nat → Nat → List Event × StmtPollOutcome
  | script, e, c =>
    if e > t then ([], .stmtTimeout)
    else
      match script with
      | [] => ([], .scriptExhausted)
      | .connError :: rest =>
        let c2 := c + 1
        if c2 ≥ maxConsecutiveErrors then
          ([.getStatement], .connFatal (connFatalMsg sid))
        else
          let b := min (5 * 2 ^ (c2 - 1)) 60
          prependEvents [.getStatement, .rebuildTransport, .sleep b]
            (getLivyResult sid t w rest (e + b) c2)
      | .httpError :: rest =>
        let c2 := c + 1
        if c2 ≥ maxConsecutiveErrors then
          ([.getStatement], .httpFatal (httpFatalMsg sid))
        else
          prependEvents [.getStatement, .sleep w]
            (getLivyResult sid t w rest (e + w) c2)
      | .parseError :: rest =>
        prependEvents [.getStatement, .sleep w]
          (getLivyResult sid t w rest (e + w) c)
      | .ok body :: rest =>
        match body.asObj with
        | none => ([.getStatement], .crashed)
        | some fs =>
          let state := pyDictGet fs "state" (.str "unknown")
          if state.isStr "available" then
            ([.getStatement], .completed body)
          else if state.isStr "error" || state.isStr "cancelled" ||
              state.isStr "cancelling" then
            match (pyDictGet fs "output" (.obj [])).asObj with
            | none => ([.getStatement], .crashed)
            | some errorInfo =>
              match joinStrs (pyDictGet errorInfo "traceback" (.arr [])) with
              | none => ([.getStatement], .crashed)
              | some tb =>
                ([.getStatement],
                  .stmtFailed ("Statement " ++ sid ++ " failed with state \x27" ++
                    pyStr state ++ "\x27: " ++
                    pyStr (pyDictGet errorInfo "evalue"
                      (.str "No error details available")) ++ "\n" ++ tb))
          else
            prependEvents [.getStatement, .sleep w]
              (getLivyResult sid t w rest (e + w) 0)

/-- Join of a list of string values is the concatenation of the strings. -/
theorem joinStrList_map_str (l : List String) :
    joinStrList (l.map JVal.str) = some (joinAll l) := by
  induction l with
  | nil => rfl
  | cons s rest ih => simp [joinStrList, joinAll, ih]

/-- C1 counterexample: ten consecutive non-connection HTTP errors alone
make `_getLivyResult` fail fatally — they do count toward the
10-consecutive-failure budget, contrary to the claim that only connection
errors do.  With `statement_timeout` 3600 and `poll_statement_wait` 5, a
script of ten `httpError` responses ends in the fatal HTTP-error outcome
naming the count 10 instead of being retried ten times. -/
theorem getLivyResult_http_errors_count_counterexample :
    getLivyResult "31" 3600 5 (List.replicate 10 .httpError) 0 0 =
      ([.getStatement, .sleep 5, .getStatement, .sleep 5, .getStatement, .sleep 5,
        .getStatement, .sleep 5, .getStatement, .sleep 5, .getStatement, .sleep 5,
        .getStatement, .sleep 5, .getStatement, .sleep 5, .getStatement, .sleep 5,
        .getStatement],
        .httpFatal "HTTP error polling statement 31 after 10 consecutive failures") :=
  rfl

/-- C1 (amended): below the deadline, a connection error increments the
consecutive-failure counter and — below the 10-failure budget — rebuilds
the transport and backs off `min(5 * 2^(c-1), 60)` seconds; at the budget
it fails fatally with an error naming the count.  A non-connection HTTP
error increments the same counter (and can exhaust the same budget) but
waits only the fixed statement poll interval; a malformed-JSON parse
error waits the fixed poll interval without touching the counter; and a
successfully parsed response resets the counter to zero. -/
theorem getLivyResult_retry_schedule (sid : String) (t w : Nat)
    (rest : List StmtPollResponse) (e c : Nat) :
    (e ≤ t → c + 1 < maxConsecutiveErrors →
      getLivyResult sid t w (.connError :: rest) e c =
        prependEvents [.getStatement, .rebuildTransport, .sleep (min (5 * 2 ^ c) 60)]
          (getLivyResult sid t w rest (e + min (5 * 2 ^ c) 60) (c + 1)))
    ∧ (e ≤ t → maxConsecutiveErrors ≤ c + 1 →
      getLivyResult sid t w (.connError :: rest) e c =
        ([.getStatement], .connFatal (connFatalMsg sid)))
    ∧ (e ≤ t → c + 1 < maxConsecutiveErrors →
      getLivyResult sid t w (.httpError :: rest) e c =
        prependEvents [.getStatement, .sleep w]
          (getLivyResult sid t w rest (e + w) (c + 1)))
    ∧ (e ≤ t → maxConsecutiveErrors ≤ c + 1 →
      getLivyResult sid t w (.httpError :: rest) e c =
        ([.getStatement], .httpFatal (httpFatalMsg sid)))
    ∧ (e ≤ t →
      getLivyResult sid t w (.parseError :: rest) e c =
        prependEvents [.getStatement, .sleep w]
          (getLivyResult sid t w rest (e + w) c))
    ∧ (e ≤ t →
      getLivyResult sid t w (.ok (.obj [("state", JVal.str "running")]) :: rest) e c =
        prependEvents [.getStatement, .sleep w]
          (getLivyResult sid t w rest (e + w) 0)) := by
  have hnt : e ≤ t → ¬ e > t := fun h => by omega
  refine ⟨?_, ?_, ?_, ?_, ?_, ?_⟩
  · intro h1 h2
    rw [getLivyResult, if_neg (hnt h1), if_neg (not_le.mpr h2)]
    rfl
  · intro h1 h2
    rw [getLivyResult, if_neg (hnt h1), if_pos h2]
  · intro h1 h2
    rw [getLivyResult, if_neg (hnt h1), if_neg (not_le.mpr h2)]
  · intro h1 h2
    rw [getLivyResult, if_neg (hnt h1), if_pos h2]
  · intro h1
    rw [getLivyResult, if_neg (hnt h1)]
  · intro h1
    rw [getLivyResult, if_neg (hnt h1)]
    rfl

/-- Witness for C1 (amended): at a concrete state below the deadline and
budget, a connection error rebuilds the transport and backs off 5 seconds
while bumping the counter to 1. -/
theorem getLivyResult_retry_schedule_witness :
    getLivyResult "31" 3600 5 [.connError] 0 0 =
      prependEvents [.getStatement, .rebuildTransport, .sleep (min (5 * 2 ^ 0) 60)]
        (getLivyResult "31" 3600 5 [] (0 + min (5 * 2 ^ 0) 60) (0 + 1)) :=
  (getLivyResult_retry_schedule "31" 3600 5 [] 0 0).1 (by decide) (by decide)

/-- C5: a polled statement response whose state is `error`, `cancelled` or
`cancelling` makes `_getLivyResult` raise immediately — one GET, no sleep,
no retry, regardless of the remaining script — with a message containing
both the remote `evalue` and the traceback entries joined into one
diagnostic string. -/
theorem getLivyResult_remote_failure (sid : String) (t w : Nat)
    (rest : List StmtPollResponse) (e c : Nat) (st ev : String)
    (tbs : List String) (he : e ≤ t)
    (hst : st = "error" ∨ st = "cancelled" ∨ st = "cancelling") :
    getLivyResult sid t w
        (.ok (.obj [("state", .str st),
          ("output", .obj [("evalue", .str ev),
            ("traceback", .arr (tbs.map JVal.str))])]) :: rest) e c =
      ([.getStatement],
        .stmtFailed ("Statement " ++ sid ++ " failed with state \x27" ++ st ++
          "\x27: " ++ ev ++ "\n" ++ joinAll tbs)) := by
  have hnt : ¬ e > t := by omega
  rcases hst with h | h | h <;> subst h <;>
    simp [getLivyResult, if_neg hnt, pyDictGet, jlookup, JVal.isStr, JVal.asObj,
      joinStrs, joinStrList_map_str, pyStr]

/-- Witness for C5 at a concrete error response carrying an `evalue` and a
two-entry traceback. -/
theorem getLivyResult_remote_failure_witness :
    getLivyResult "7" 3600 5
        [.ok (.obj [("state", .str "error"),
          ("output", .obj [("evalue", .str "boom"),
            ("traceback", .arr ([JVal.str "t1", JVal.str "t2"]))])])] 0 0 =
      ([.getStatement],
        .stmtFailed ("Statement " ++ "7" ++ " failed with state \x27" ++ "error" ++
          "\x27: " ++ "boom" ++ "\n" ++ joinAll ["t1", "t2"])) := by
  have h := getLivyResult_remote_failure "7" 3600 5 [] 0 0 "error" "boom"
    ["t1", "t2"] (by decide) (Or.inl rfl)
  simpa using h

/-! Statement submission (`LivyCursor._submitLivyCode`,
livysession.py 437-474). -/

/-- One attempted `POST .../statements` as seen by the retry loop:
a ConnectionError/Timeout, any other RequestException (HTTP status errors
included), or a successful response. -/
inductive SubmitResponse where
  | connError
  | httpError
  | ok (body : JVal)

/-- Terminal outcomes of `_submitLivyCode`. -/
inductive SubmitOutcome where
  | submitted (body : JVal)
  | failedConn (msg : String)
  | failedHttp
  | scriptExhausted

/-- `max_retries` (livysession.py 446). -/
def maxRetries : Nat := 5

/-- Message of the fatal connection-failure error (livysession.py 459-461;
the interpolated exception text is elided). -/
def submitFailMsg : String :=
  "Failed to submit statement after " ++ toString maxRetries ++ " attempts"

/-- The retry loop of `LivyCursor._submitLivyCode` (livysession.py
446-474), with `attempt` the 1-based loop variable.  A success returns the
response; a connection-level failure at the final attempt raises an error
naming the attempt count, and below it rebuilds the transport client and
sleeps `min(5 * 2^(attempt-1), 60)`; any other request exception raises
immediately with no retry at this layer. -/
def submitLivyCode : List SubmitResponse → Nat → List Event × SubmitOutcome
  | [], _ => ([], .scriptExhausted)
  | .ok body :: _, _ => ([.postStatement], .submitted body)
  | .httpError :: _, _ => ([.postStatement], .failedHttp)
  | .connError :: rest, attempt =>
    if attempt ≥ maxRetries then
      ([.postStatement], .failedConn submitFailMsg)
    else
      let b := min (5 * 2 ^ (attempt - 1)) 60
      prependEvents [.postStatement, .rebuildTransport, .sleep b]
        (submitLivyCode rest (attempt + 1))

/-- C2: statement submission retries connection-level failures up to a
total of 5 attempts, rebuilding the transport client and sleeping
`min(5 * 2^(k-1), 60)` seconds after each failed attempt `k` below the
last; after the final attempt it raises an error naming the attempt
count; a successful attempt returns at once; and a non-connection HTTP
error raises immediately without any retry at this layer.  The closed
conjunct runs the full five-connection-failure schedule (backoffs 5, 10,
20, 40 seconds, then the fatal error). -/
theorem submitLivyCode_retry (rest : List SubmitResponse) (body : JVal)
    (attempt : Nat) :
    submitLivyCode (.ok body :: rest) attempt = ([.postStatement], .submitted body)
    ∧ submitLivyCode (.httpError :: rest) attempt = ([.postStatement], .failedHttp)
    ∧ (attempt < maxRetries →
      submitLivyCode (.connError :: rest) attempt =
        prependEvents
          [.postStatement, .rebuildTransport, .sleep (min (5 * 2 ^ (attempt - 1)) 60)]
          (submitLivyCode rest (attempt + 1)))
    ∧ (maxRetries ≤ attempt →
      submitLivyCode (.connError :: rest) attempt =
        ([.postStatement], .failedConn submitFailMsg))
    ∧ submitLivyCode (List.replicate 5 .connError) 1 =
        ([.postStatement, .rebuildTransport, .sleep 5,
          .postStatement, .rebuildTransport, .sleep 10,
          .postStatement, .rebuildTransport, .sleep 20,
          .postStatement, .rebuildTransport, .sleep 40,
          .postStatement],
          .failedConn "Failed to submit statement after 5 attempts") := by
  refine ⟨rfl, rfl, ?_, ?_, rfl⟩
  · intro h
    rw [submitLivyCode, if_neg (not_le.mpr h)]
  · intro h
    rw [submitLivyCode, if_pos h]

/-- Witness for C2 at attempt 2 below the budget: the transport is rebuilt
and the loop sleeps 10 seconds before retrying at attempt 3. -/
theorem submitLivyCode_retry_witness :
    submitLivyCode [.connError] 2 =
      prependEvents
        [.postStatement, .rebuildTransport, .sleep (min (5 * 2 ^ (2 - 1)) 60)]
        (submitLivyCode [] (2 + 1)) :=
  (submitLivyCode_retry [] (.null) 2).2.2.1 (by decide)

/-! Session readiness polling (`LivySession.wait_for_session_start`,
livysession.py 266-319). -/

/-- One polled response of `GET .../sessions/id`: any RequestException,
a ValueError/KeyError while parsing, or a parsed JSON body. -/
inductive SessionPollResponse where
  | requestError
  | parseError
  | ok (body : JVal)

/-- Terminal outcomes of `wait_for_session_start`. -/
inductive SessionWaitOutcome where
  | ready
  | startTimeout
  | sessionFailed (msg : String)
  | crashed
  | scriptExhausted

/-- `LivySession.wait_for_session_start` (livysession.py 266-319).  `sid`
is the session id, `t` is `session_start_timeout`, `w` is `poll_wait`,
`e` the elapsed time.  Each iteration first checks the deadline, then
issues one GET on the session (event `getSession`) — never a statement
endpoint.  Request or parse errors sleep `poll_wait` and retry.  On a
parsed body the source checks the top-level `state` first: `starting` or
`not_started` sleeps `poll_wait`; otherwise a nested Livy state of `idle`
returns ready, a nested state of `dead`, `killed` or `error` raises with
the session id and the response's `errorMessage`, and anything else
sleeps `poll_wait`. -/
def waitForSessionStart (sid : String) (t w : Nat) :
    List SessionPollResponse → Nat → List Event × SessionWaitOutcome
  | script, e =>
    if e > t then ([], .startTimeout)
    else
      match script with
      | [] => ([], .scriptExhausted)
      | .requestError :: rest =>
        prependEvents [.getSession, .sleep w]
          (waitForSessionStart sid t w rest (e + w))
      | .parseError :: rest =>
        prependEvents [.getSession, .sleep w]
          (waitForSessionStart sid t w rest (e + w))
      | .ok body :: rest =>
        match body.asObj with
        | none => ([.getSession], .crashed)
        | some fs =>
          let state := pyDictGet fs "state" (.str "unknown")
          match (pyDictGet fs "livyInfo" (.obj [])).asObj with
          | none => ([.getSession], .crashed)
          | some li =>
            let livyState := pyDictGet li "currentState" (.str "unknown")
            if state.isStr "starting" || state.isStr "not_started" then
              prependEvents [.getSession, .sleep w]
                (waitForSessionStart sid t w rest (e + w))
            else if livyState.isStr "idle" then
              ([.getSession], .ready)
            else if livyState.isStr "dead" || livyState.isStr "killed" ||
                livyState.isStr "error" then
              ([.getSession],
                .sessionFailed ("Livy session " ++ sid ++ " entered \x27" ++
                  pyStr livyState ++ "\x27 state: " ++
                  pyStr (pyDictGet li "errorMessage" (.str "No error details"))))
            else
              prependEvents [.getSession, .sleep w]
                (waitForSessionStart sid t w rest (e + w))

/-- C3 counterexample: a response whose nested Livy state is `dead` does
not make `wait_for_session_start` raise when its top-level state is
`starting` — the source checks the top-level state first and keeps
polling (here: one GET, one sleep, then the script ends), contrary to the
claim that any response with nested state dead/killed/error raises
immediately. -/
theorem waitForSessionStart_dead_while_starting_counterexample :
    waitForSessionStart "s1" 600 10
        [.ok (.obj [("state", .str "starting"),
          ("livyInfo", .obj [("currentState", .str "dead"),
            ("errorMessage", .str "boom")])])] 0 =
      ([.getSession, .sleep 10], .scriptExhausted) :=
  rfl

/-- C3 (amended): on the scripted sequence `[starting, starting, idle]`
the readiness poll issues exactly three session GETs and two `poll_wait`
sleeps — and no statement-endpoint call — returning ready on the third
observation; and a response whose nested Livy state is `dead`, `killed`
or `error` while its top-level state is not `starting`/`not_started`
raises immediately, without further polling, with an error carrying the
session id and the response's `errorMessage`. -/
theorem waitForSessionStart_spec (sid : String) (t w e : Nat)
    (rest : List SessionPollResponse) (st ls em : String) :
    (w + w ≤ t →
      waitForSessionStart sid t w
          [.ok (.obj [("state", .str "starting")]),
           .ok (.obj [("state", .str "starting")]),
           .ok (.obj [("state", .str "idle"),
             ("livyInfo", .obj [("currentState", .str "idle")])])] 0 =
        ([.getSession, .sleep w, .getSession, .sleep w, .getSession], .ready))
    ∧ (e ≤ t → st ≠ "starting" → st ≠ "not_started" →
        (ls = "dead" ∨ ls = "killed" ∨ ls = "error") →
      waitForSessionStart sid t w
          (.ok (.obj [("state", .str st),
            ("livyInfo", .obj [("currentState", .str ls),
              ("errorMessage", .str em)])]) :: rest) e =
        ([.getSession],
          .sessionFailed ("Livy session " ++ sid ++ " entered \x27" ++ ls ++
            "\x27 state: " ++ em))) := by
  constructor
  · intro h
    simp [waitForSessionStart, pyDictGet, jlookup, JVal.isStr, JVal.asObj,
      prependEvents, pyStr, show ¬ t < 0 by omega, show ¬ t < w by omega,
      show ¬ t < 0 + w by omega, show ¬ t < w + w by omega,
      show ¬ t < 0 + w + w by omega]
  · intro he hst hns hls
    have hnt : ¬ e > t := by omega
    rcases hls with h | h | h <;> subst h <;>
      simp [waitForSessionStart, if_neg hnt, pyDictGet, jlookup, JVal.isStr,
        JVal.asObj, pyStr, hst, hns]

/-- Witness for C3 (amended) at concrete poll interval 10 and timeout 600:
three GETs, two sleeps, ready on the third observation. -/
theorem waitForSessionStart_spec_witness :
    waitForSessionStart "s1" 600 10
        [.ok (.obj [("state", .str "starting")]),
         .ok (.obj [("state", .str "starting")]),
         .ok (.obj [("state", .str "idle"),
           ("livyInfo", .obj [("currentState", .str "idle")])])] 0 =
      ([.getSession, .sleep 10, .getSession, .sleep 10, .getSession], .ready) :=
  (waitForSessionStart_spec "s1" 600 10 0 [] "x" "dead" "m").1 (by decide)

/-! Result decoding (`LivyCursor.execute`, livysession.py 572-606, and
`LivyCursor.description`, 393-424). -/

/-- The fields of a `LivyCursor` that `execute` assigns:
`_rows`, `_schema` and `_fetch_index`. -/
structure CursorState where
  rows : Option JVal
  schema : Option JVal
  fetchIndex : Nat

/-- Outcome of the payload-decoding part of `execute`. -/
inductive ExecResult where
  | done (st : CursorState)
  | queryError (msg : String)
  | pyError (e : PyErr)

/-- The payload decoding of `LivyCursor.execute` (livysession.py 592-606)
applied to the response returned by `_getLivyResult`: on
`output.status == "ok"` it takes `output.data["application/json"]`; a
non-empty mapping yields its `data` as the rows and its `schema.fields`
as the schema, an empty one yields empty rows and schema; a non-ok status
sets both fields to `None` and raises using `output.evalue` (string
concatenation, hence a `TypeError` on a non-string `evalue`). -/
def cursorExecute (res : JVal) : ExecResult :=
  match pyIndex res "output" with
  | .error err => .pyError err
  | .ok output =>
    match pyIndex output "status" with
    | .error err => .pyError err
    | .ok status =>
      if status.isStr "ok" then
        match pyIndex output "data" with
        | .error err => .pyError err
        | .ok data =>
          match pyIndex data "application/json" with
          | .error err => .pyError err
          | .ok values =>
            match pyLen values with
            | none => .pyError .typeError
            | some n =>
              if n ≥ 1 then
                match pyIndex values "data" with
                | .error err => .pyError err
                | .ok rows =>
                  match pyIndex values "schema" with
                  | .error err => .pyError err
                  | .ok schema =>
                    match pyIndex schema "fields" with
                    | .error err => .pyError err
                    | .ok fields => .done ⟨some rows, some fields, 0⟩
              else
                .done ⟨some (.arr []), some (.arr []), 0⟩
      else
        match pyIndex output "evalue" with
        | .error err => .pyError err
        | .ok ev =>
          match ev with
          | .str s => .queryError ("Error while executing query: " ++ s)
          | _ => .pyError .typeError

/-- One tuple of `LivyCursor.description` (livysession.py 412-423):
`(field["name"], field["type"], None, None, None, None,
field["nullable"])`. -/
structure DescColumn where
  name : JVal
  colType : JVal
  c3 : JVal
  c4 : JVal
  c5 : JVal
  c6 : JVal
  nullable : JVal

/-- Build one description tuple from a schema field. -/
def descColumn (field : JVal) : Except PyErr DescColumn := do
  let n ← pyIndex field "name"
  let ty ← pyIndex field "type"
  let nb ← pyIndex field "nullable"
  return ⟨n, ty, .null, .null, .null, .null, nb⟩

/-- `LivyCursor.description` (livysession.py 393-424): the empty list when
`_schema` is `None`, otherwise one 7-tuple per schema field. -/
def cursorDescription (schema : Option JVal) : Except PyErr (List DescColumn) :=
  match schema with
  | none => .ok []
  | some v =>
    match pyIter v with
    | none => .error .typeError
    | some fields => fields.mapM descColumn

/-- `LivyCursor.fetchall` (livysession.py 608-621): returns `_rows`. -/
def LivyCursor.fetchall (st : CursorState) : Option JVal :=
  st.rows

/-- Concrete schema field `{name: "x", type: "int", nullable: false}` from
the spec's statement-polling scenario. -/
def fieldX : JVal :=
  .obj [("name", .str "x"), ("type", .str "int"), ("nullable", .bool false)]

/-- Concrete schema field `{name: "y", type: "string", nullable: true}`
from the spec's statement-polling scenario. -/
def fieldY : JVal :=
  .obj [("name", .str "y"), ("type", .str "string"), ("nullable", .bool true)]

/-- Concrete rows `[[1, "a"]]` from the spec's scenario. -/
def specRows : JVal :=
  .arr [.arr [.num 1, .str "a"]]

/-- The complete `available` statement response of the spec's scenario. -/
def availableBody : JVal :=
  .obj [("state", .str "available"),
    ("output", .obj [("status", .str "ok"),
      ("data", .obj [("application/json", .obj [("data", specRows),
        ("schema", .obj [("fields", .arr [fieldX, fieldY])])])])])]

/-- C4: when a statement resolves `available` with `output.status == "ok"`,
`execute` takes `output.data["application/json"]`: if non-empty its `data`
becomes the rows and its `schema.fields` the schema (so `fetchall`
returns exactly those rows and `description` is one
`(name, type, None, None, None, None, nullable)` tuple per field); if
empty, rows and schema are both empty; and a non-ok status raises an
error whose message uses `output.evalue`.  The closed conjuncts run the
spec's `[running, running, available]` scenario end to end: the poll
completes with the payload, `fetchall` yields `[[1, "a"]]`, and the
second description tuple has name `"y"` and nullable `true`. -/
theorem cursorExecute_decode_spec (rows fieldsJ stv : JVal) (ev : String)
    (hnok : JVal.isStr stv "ok" = false) :
    cursorExecute (.obj [("state", .str "available"),
        ("output", .obj [("status", .str "ok"),
          ("data", .obj [("application/json", .obj [("data", rows),
            ("schema", .obj [("fields", fieldsJ)])])])])]) =
      .done ⟨some rows, some fieldsJ, 0⟩
    ∧ cursorExecute (.obj [("output", .obj [("status", .str "ok"),
        ("data", .obj [("application/json", .obj [])])])]) =
      .done ⟨some (.arr []), some (.arr []), 0⟩
    ∧ cursorExecute (.obj [("output", .obj [("status", stv),
        ("evalue", .str ev)])]) =
      .queryError ("Error while executing query: " ++ ev)
    ∧ (∀ n ty nb : JVal,
      descColumn (.obj [("name", n), ("type", ty), ("nullable", nb)]) =
        .ok ⟨n, ty, .null, .null, .null, .null, nb⟩)
    ∧ (getLivyResult "12" 3600 5
        [.ok (.obj [("state", .str "running")]),
         .ok (.obj [("state", .str "running")]),
         .ok availableBody] 0 0).2 = .completed availableBody
    ∧ cursorExecute availableBody =
        .done ⟨some specRows, some (.arr [fieldX, fieldY]), 0⟩
    ∧ LivyCursor.fetchall ⟨some specRows, some (.arr [fieldX, fieldY]), 0⟩ =
        some (.arr [.arr [.num 1, .str "a"]])
    ∧ cursorDescription (some (.arr [fieldX, fieldY])) =
        .ok [⟨.str "x", .str "int", .null, .null, .null, .null, .bool false⟩,
             ⟨.str "y", .str "string", .null, .null, .null, .null, .bool true⟩] := by
  refine ⟨rfl, rfl, ?_, fun n ty nb => rfl, rfl, rfl, rfl, rfl⟩
  simp [cursorExecute, pyIndex, jlookup, hnok]

/-- Witness for C4 at a concrete non-ok status: `execute` raises with the
remote `evalue` in the message. -/
theorem cursorExecute_decode_spec_witness :
    cursorExecute (.obj [("output", .obj [("status", .str "error"),
        ("evalue", .str "bad query")])]) =
      .queryError ("Error while executing query: " ++ "bad query") :=
  (cursorExecute_decode_spec (.arr []) (.arr []) (.str "error") "bad query"
    (by decide)).2.2.1

/-! SQL comment stripping (`LivyCursor._getLivySQL`, livysession.py
476-478): `re.sub(pattern, newline, sql, re.DOTALL).strip()` where the
flag `re.DOTALL` (integer value 16) is passed positionally as the `count`
argument, so at most the first 16 matches are replaced. -/

/-- Python regex `\s` on ASCII input (space, tab, newline, carriage
return, vertical tab, form feed). -/
def isPySpace (c : Char) : Bool :=
  c = ' ' || c = '\t' || c = '\n' || c = '\r' || c = '\x0b' || c = '\x0c'

/-- Lazy scan of `(.|\n)*?\*/`: find the earliest `*/` and return the
suffix after it, or `none` when the comment is unterminated. -/
def findCommentClose : List Char → Option (List Char)
  | [] => none
  | '*' :: '/' :: rest => some rest
  | _ :: rest => findCommentClose rest

/-- Match the pattern `\s*/\*(.|\n)*?\*/\s*` anchored at the start of
`cs`: greedy leading whitespace (deterministic, since whitespace cannot
begin `/*`), the literal `/*`, the lazy body up to the earliest `*/`, and
greedy trailing whitespace.  Returns the remaining suffix on a match. -/
def matchCommentAt (cs : List Char) : Option (List Char) :=
  match cs.dropWhile isPySpace with
  | '/' :: '*' :: rest =>
    (findCommentClose rest).map (fun r => r.dropWhile isPySpace)
  | _ => none

/-- `re.sub` with replacement `"\n"` and a replacement budget `count`:
scan left to right; at each position replace the leftmost match by one
newline (decrementing the budget) or copy one character.  `fuel` only
bounds the recursion and is always given at least the input length plus
one, which never runs out since every step consumes a character. -/
def subComments (fuel count : Nat) (cs : List Char) : List Char :=
  match fuel with
  | 0 => cs
  | fuel + 1 =>
    if count = 0 then cs
    else
      match matchCommentAt cs with
      | some rest => '\n' :: subComments fuel (count - 1) rest
      | none =>
        match cs with
        | [] => []
        | c :: cs2 => c :: subComments fuel count cs2

/-- Python `str.strip()` on ASCII input. -/
def pyStrip (s : String) : String :=
  String.mk (((s.data.dropWhile isPySpace).reverse.dropWhile isPySpace).reverse)

/-- `LivyCursor._getLivySQL` (livysession.py 476-478):
`re.sub(r"\s*/\*(.|\n)*?\*/\s*", newline, sql, re.DOTALL).strip()` — the
positional `re.DOTALL` is the count 16, so only the first 16 block
comments are replaced, and the result is stripped of surrounding
whitespace.  This is the code submitted to the statements endpoint by
`execute`. -/
def getLivySQL (sql : String) : String :=
  pyStrip (String.mk (subComments (sql.data.length + 1) 16 sql.data))

/-- C10 counterexample: the claim says the submitted code is never the
input verbatim, but an input with no block comment and no surrounding
whitespace passes through `_getLivySQL` unchanged. -/
theorem getLivySQL_verbatim_counterexample :
    getLivySQL "SELECT 1" = "SELECT 1" :=
  rfl

/-- C10 (amended): the code submitted by `execute` is `_getLivySQL` of the
input, which replaces each block comment together with its surrounding
whitespace — at most the first 16 occurrences, because `re.DOTALL` is
passed positionally as the replacement count — by a single newline and
strips the ends; comment-like text inside a SQL string literal is also
rewritten; inputs with no block comment and no surrounding whitespace
pass through verbatim.  The conjuncts: comment plus whitespace collapse
to one newline with the ends stripped; a comment inside a quoted literal
is replaced too; and with 17 comments the 17th survives because the
budget is 16. -/
theorem getLivySQL_spec :
    getLivySQL "  SELECT 1 /* note */ FROM t  " = "SELECT 1\nFROM t"
    ∧ getLivySQL "SELECT \x27/* c */\x27 AS x" = "SELECT \x27\n\x27 AS x"
    ∧ getLivySQL
        "a/**/a/**/a/**/a/**/a/**/a/**/a/**/a/**/a/**/a/**/a/**/a/**/a/**/a/**/a/**/a/**/a/**/a"
      = "a\na\na\na\na\na\na\na\na\na\na\na\na\na\na\na\na/**/a" :=
  ⟨rfl, rfl, rfl⟩
